import Mathlib

set_option maxHeartbeats 1000000

/-!
Shallow embedding of the IRCC portal update checker.

Part A models `src/purge_screenshots.py` (the screenshot retention policy).
Part B models the poll loop of `src/check_ircc_updates.py`: session
reinitialization, the fatal error handlers around `login()` and
`check_for_updates()`, the checkpoint file, and `send_email`.
-/

/-- A file of the screenshots directory as seen by `purge_old_screenshots`:
its name together with the modification timestamp returned by
`os.path.getmtime`. -/
structure FsFile where
  name : String
  mtime : Nat
deriving DecidableEq

/-- The key ordering used by `files.sort(key=lambda x: x[1])`:
ascending modification time. -/
def mtimeLE (a b : FsFile) : Prop :=
  a.mtime ≤ b.mtime

instance : DecidableRel mtimeLE :=
  fun a b => Nat.decLe a.mtime b.mtime

instance : IsTotal FsFile mtimeLE :=
  ⟨fun a b => Nat.le_total a.mtime b.mtime⟩

instance : IsTrans FsFile mtimeLE :=
  ⟨fun _ _ _ h1 h2 => Nat.le_trans h1 h2⟩

/-- The while loop of `purge_old_screenshots`:
`while (len(files) - 1) > num_to_keep: files.pop(0); os.remove(...)`.
On a list ascending by mtime, popping index 0 deletes the oldest file. -/
def purgeLoop (num_to_keep : Nat) : List FsFile → List FsFile
  | [] => []
  | f :: fs => if num_to_keep < fs.length then purgeLoop num_to_keep fs else f :: fs

/-- `purge_old_screenshots(dir_path, num_to_keep)`: lists the files of the
directory with their timestamps, sorts them ascending by timestamp (Python
`list.sort` is stable, as is insertion sort), then removes the oldest ones
while strictly more than `num_to_keep` files beyond one extra would remain;
the `- 1` of the source accounts for the `.gitkeep` placeholder that lives in
the screenshots directory. The value returned is the directory contents
remaining after the deletions, in ascending mtime order. -/
def purge_old_screenshots (files : List FsFile) (num_to_keep : Nat) : List FsFile :=
  purgeLoop num_to_keep (files.insertionSort mtimeLE)

/-- Number of artifact (non-placeholder) files in a directory listing. -/
def artifactCount (files : List FsFile) : Nat :=
  (files.filter (fun f => f.name ≠ ".gitkeep")).length

theorem purgeLoop_eq_drop (k : Nat) :
    ∀ l : List FsFile, purgeLoop k l = l.drop (l.length - (k + 1)) := by
  intro l
  induction l with
  | nil => simp [purgeLoop]
  | cons f fs ih =>
      by_cases h : k < fs.length
      · have h1 : fs.length - k = (fs.length - (k + 1)) + 1 := by omega
        simp only [purgeLoop, h, if_pos, ih, List.length_cons,
          Nat.succ_sub_succ_eq_sub]
        rw [h1, List.drop_succ_cons]
      · have h1 : fs.length - k = 0 := by omega
        simp only [purgeLoop, h, if_neg, ite_false, List.length_cons,
          Nat.succ_sub_succ_eq_sub]
        rw [h1, List.drop_zero]

theorem purge_eq_drop (files : List FsFile) (k : Nat) :
    purge_old_screenshots files k =
      (files.insertionSort mtimeLE).drop (files.length - (k + 1)) := by
  unfold purge_old_screenshots
  rw [purgeLoop_eq_drop, List.length_insertionSort]

theorem filter_name_split (l : List FsFile) :
    (l.filter (fun f => f.name = ".gitkeep")).length +
      (l.filter (fun f => f.name ≠ ".gitkeep")).length = l.length := by
  induction l with
  | nil => rfl
  | cons f fs ih =>
      simp only [ne_eq, decide_not] at ih ⊢
      by_cases h : f.name = ".gitkeep" <;>
        simp [List.filter_cons, h] <;> omega

/-- C7 counterexample: a directory whose `.gitkeep` placeholder is the oldest
file. With two artifacts and `num_to_keep = 1`, the loop deletes the
placeholder itself (it only subtracts one from the count, it does not skip
the placeholder), stops with two files left, and so neither does exactly one
artifact remain nor does the placeholder survive. -/
theorem c7_counterexample :
    purge_old_screenshots
        [FsFile.mk ".gitkeep" 0, FsFile.mk "shot1" 1, FsFile.mk "shot2" 2] 1 =
      [FsFile.mk "shot1" 1, FsFile.mk "shot2" 2] ∧
    ¬ (artifactCount (purge_old_screenshots
          [FsFile.mk ".gitkeep" 0, FsFile.mk "shot1" 1, FsFile.mk "shot2" 2] 1) = 1 ∧
        FsFile.mk ".gitkeep" 0 ∈ purge_old_screenshots
          [FsFile.mk ".gitkeep" 0, FsFile.mk "shot1" 1, FsFile.mk "shot2" 2] 1) := by
  decide

/-- C7 (amended): `purge_old_screenshots` keeps exactly the `keep + 1` most
recently modified files of the whole directory, the placeholder being ranked
together with the artifacts; whenever the single placeholder is NOT among the
`N - keep` oldest files, exactly `keep` artifact files remain (the most
recently modified ones, as the kept files are the final segment of the
ascending mtime order) and the placeholder survives. -/
theorem c7_amended (files : List FsFile) (k : Nat)
    (hsort : List.Sorted mtimeLE files)
    (hk : k + 1 ≤ files.length)
    (hone : (files.filter (fun f => f.name = ".gitkeep")).length = 1)
    (hplace : ∀ f ∈ files.take (files.length - (k + 1)), f.name ≠ ".gitkeep") :
    purge_old_screenshots files k = files.drop (files.length - (k + 1)) ∧
    (purge_old_screenshots files k).length = k + 1 ∧
    artifactCount (purge_old_screenshots files k) = k ∧
    ∃ g ∈ purge_old_screenshots files k, g.name = ".gitkeep" := by
  have heq : purge_old_screenshots files k = files.drop (files.length - (k + 1)) := by
    rw [purge_eq_drop, hsort.insertionSort_eq]
  have hlen : (files.drop (files.length - (k + 1))).length = k + 1 := by
    rw [List.length_drop]; omega
  have htake : ((files.take (files.length - (k + 1))).filter
      (fun f => f.name = ".gitkeep")).length = 0 := by
    have hnil : (files.take (files.length - (k + 1))).filter
        (fun f => f.name = ".gitkeep") = [] := by
      rw [List.filter_eq_nil_iff]
      intro f hf
      simpa using hplace f hf
    rw [hnil]; rfl
  have hfa : (files.filter (fun f => f.name = ".gitkeep")).length =
      ((files.take (files.length - (k + 1))).filter
        (fun f => f.name = ".gitkeep")).length +
      ((files.drop (files.length - (k + 1))).filter
        (fun f => f.name = ".gitkeep")).length := by
    conv_lhs => rw [← List.take_append_drop (files.length - (k + 1)) files]
    rw [List.filter_append, List.length_append]
  have hone2 : ((files.drop (files.length - (k + 1))).filter
      (fun f => f.name = ".gitkeep")).length = 1 := by
    omega
  have hsplit := filter_name_split (files.drop (files.length - (k + 1)))
  refine ⟨heq, by rw [heq]; exact hlen, ?_, ?_⟩
  · unfold artifactCount
    rw [heq]
    omega
  · have hpos : 0 < ((files.drop (files.length - (k + 1))).filter
        (fun f => f.name = ".gitkeep")).length := by omega
    obtain ⟨g, hg⟩ := List.exists_mem_of_length_pos hpos
    have hg2 := List.mem_filter.mp hg
    refine ⟨g, ?_, ?_⟩
    · rw [heq]; exact hg2.1
    · simpa using hg2.2

/-- C7 amended witness: a four-file directory, placeholder second newest,
`keep = 2`: the hypotheses hold, two artifacts (the two newest) remain
together with the placeholder. -/
theorem c7_amended_witness :
    artifactCount (purge_old_screenshots
        [FsFile.mk "old" 0, FsFile.mk "mid" 1, FsFile.mk ".gitkeep" 2,
         FsFile.mk "new" 3] 2) = 2 ∧
    ∃ g ∈ purge_old_screenshots
        [FsFile.mk "old" 0, FsFile.mk "mid" 1, FsFile.mk ".gitkeep" 2,
         FsFile.mk "new" 3] 2, g.name = ".gitkeep" := by
  have h := c7_amended
    [FsFile.mk "old" 0, FsFile.mk "mid" 1, FsFile.mk ".gitkeep" 2,
     FsFile.mk "new" 3] 2 (by decide) (by decide) (by decide) (by decide)
  exact ⟨h.2.2.1, h.2.2.2⟩

/-- C8: if the directory holds at most `keep` files plus the placeholder,
purge deletes nothing (the remaining files are a permutation of the listing,
i.e. the same set), and purging twice in a row with no files added in between
gives exactly the same directory contents as purging once. -/
theorem c8_noop_and_idempotent (files : List FsFile) (k : Nat) :
    (files.length ≤ k + 1 → List.Perm (purge_old_screenshots files k) files) ∧
    purge_old_screenshots (purge_old_screenshots files k) k =
      purge_old_screenshots files k := by
  constructor
  · intro hle
    have h0 : files.length - (k + 1) = 0 := by omega
    rw [purge_eq_drop, h0, List.drop_zero]
    exact List.perm_insertionSort mtimeLE files
  · have hs1 : List.Sorted mtimeLE (files.insertionSort mtimeLE) :=
      List.sorted_insertionSort mtimeLE files
    have hs2 : List.Sorted mtimeLE (purge_old_screenshots files k) := by
      rw [purge_eq_drop]
      exact List.Pairwise.sublist (List.drop_sublist _ _) hs1
    have hlen2 : (purge_old_screenshots files k).length ≤ k + 1 := by
      rw [purge_eq_drop, List.length_drop, List.length_insertionSort]; omega
    rw [purge_eq_drop (purge_old_screenshots files k) k, hs2.insertionSort_eq]
    have h0 : (purge_old_screenshots files k).length - (k + 1) = 0 := by omega
    rw [h0, List.drop_zero]

/-- C8 witness: a two-file directory with `keep = 1` is left untouched. -/
theorem c8_witness :
    [FsFile.mk "a" 5, FsFile.mk "b" 3].length ≤ 1 + 1 ∧
    List.Perm (purge_old_screenshots [FsFile.mk "a" 5, FsFile.mk "b" 3] 1)
      [FsFile.mk "a" 5, FsFile.mk "b" 3] :=
  ⟨by decide,
   (c8_noop_and_idempotent [FsFile.mk "a" 5, FsFile.mk "b" 3] 1).1 (by decide)⟩

/-- Outcome of a selenium interaction (`login()` as a whole): it can return
normally, raise `TimeoutException`, or raise any other exception (the source
treats the unexpected dashboard URL by raising a plain `Exception`). -/
inductive PyOutcome
  | ok
  | timeoutExc
  | otherExc
deriving DecidableEq

/-- Outcome of reading the `date-text` field inside `check_for_updates()`:
the observed status string, a `TimeoutException` from `wait.until`, or any
other exception. -/
inductive ReadOutcome
  | ok (v : String)
  | timeoutExc
  | otherExc
deriving DecidableEq

/-- Environment of one `send_email` call: whether each fallible step of the
try block succeeds (reading the screenshot file for the attachment,
`SMTP_SSL`, `server.login`, `server.sendmail`). -/
structure EmailEnv where
  attachReadOk : Bool
  connectOk : Bool
  loginOk : Bool
  sendOk : Bool
deriving DecidableEq

/-- The exception that a step of the `send_email` try block raises. -/
inductive EmailErr
  | attachRead
  | connect
  | login
  | send
deriving DecidableEq

/-- The try block of `send_email`: attach the screenshot when a path was
passed (opening the file can fail), then connect, log in, send, quit; the
first failing step raises. -/
def send_email_try (attach : Bool) (env : EmailEnv) : Except EmailErr Unit :=
  if attach && !env.attachReadOk then Except.error EmailErr.attachRead
  else if !env.connectOk then Except.error EmailErr.connect
  else if !env.loginOk then Except.error EmailErr.login
  else if !env.sendOk then Except.error EmailErr.send
  else Except.ok ()

/-- What a `send_email` call comes back with: whether the mail went out and
whether a transport failure was logged. `send_email` always returns; there is
no field for a propagating exception because the `except Exception` clause of
the source catches everything raised in the try block. -/
structure EmailSendRes where
  delivered : Bool
  loggedError : Bool
deriving DecidableEq

/-- `send_email(subject, body, screenshot_path)`: runs the try block; on any
exception it logs the failure and returns normally (the handler ends in
`return`, nothing is re-raised). Subject and body never influence control
flow. -/
def send_email (subject body : String) (attach : Bool) (env : EmailEnv) :
    EmailSendRes :=
  match subject, body, send_email_try attach env with
  | _, _, Except.ok _ => ⟨true, false⟩
  | _, _, Except.error _ => ⟨false, true⟩

/-- Kind of notification email a cycle sends. -/
inductive EmailKind
  | update
  | noUpdate
  | error
deriving DecidableEq

/-- Observable actions of one poll-loop cycle, in program order. -/
inductive Event
  | quitSession (id : Nat)
  | createSession (id : Nat)
  | screenshot
  | email (kind : EmailKind) (delivered : Bool)
  | writeCheckpoint (v : String)
  | flushOut
  | purgeShots
  | sleepCycle
deriving DecidableEq

/-- State of the process between cycles: the contents of
`LAST_UPDATED_FILE` on disk (`none` when the file does not exist), the
current WebDriver (its identity, whether it has been quit, its creation
time `start_time`), and a counter for fresh WebDriver identities. -/
structure ProcState where
  checkpoint : Option String
  sessionId : Nat
  sessionOpen : Bool
  sessionStart : Nat
  nextSession : Nat
deriving DecidableEq

/-- Environment of one cycle: wall-clock time at the top of the loop, the
outcomes of `login()` and of the status read, whether `take_screenshot`
succeeds on the normal path and inside the fatal handlers, and the email
transport environment. -/
structure CycleEnv where
  now : Nat
  loginResult : PyOutcome
  statusResult : ReadOutcome
  screenshotOk : Bool
  handlerScreenshotOk : Bool
  emailEnv : EmailEnv
deriving DecidableEq

def CHECK_INTERVAL_SECONDS : Nat := 3600

def REINITIALIZATION_INTERVAL : Nat := CHECK_INTERVAL_SECONDS / 2

/-- The session-reinitialization block at the top of the while loop of
`main()`. When the elapsed time exceeds `REINITIALIZATION_INTERVAL`, the old
driver is quit, a fresh driver is created by `setup_webdriver()` - and then
the `with` statement, whose body is only the log line, ends at once, so its
context-manager cleanup quits the newly created driver before `login()` is
ever reached. `start_time` is reset to the current time. -/
def reinitPhase (s : ProcState) (e : CycleEnv) : ProcState × List Event :=
  if REINITIALIZATION_INTERVAL < e.now - s.sessionStart then
    ({ checkpoint := s.checkpoint
       sessionId := s.nextSession
       sessionOpen := false
       sessionStart := e.now
       nextSession := s.nextSession + 1 },
     [Event.quitSession s.sessionId, Event.createSession s.nextSession,
      Event.quitSession s.nextSession])
  else (s, [])

/-- Result of one cycle: `exitCode = none` means the loop continues with the
next iteration; `exitCode = some c` means the process terminated with exit
status `c` (both `sys.exit(message)` and an unhandled exception give 1). -/
structure StepRes where
  exitCode : Option Nat
  state : ProcState
  events : List Event
deriving DecidableEq

/-- Events produced by each of the four fatal `except` handlers of `main()`:
`take_screenshot(driver)` first - if that raises, the handler is abandoned
and nothing further happens - then the error email, then the stdout flush
before `sys.exit`. -/
def fatalHandlerEvents (e : CycleEnv) : List Event :=
  if e.handlerScreenshotOk then
    [Event.screenshot,
     Event.email EmailKind.error
       (send_email "IRCC Portal Script Error" "error details" true e.emailEnv).delivered,
     Event.flushOut]
  else []

/-- The `finally` block of the `check_for_updates` try statement: purge the
screenshots directory (`PURGE_SCREENSHOTS` is `True`), flush stdout, sleep
for `CHECK_INTERVAL_SECONDS`. It runs both on normal completion and while a
`SystemExit` or any other exception propagates. -/
def finallyEvents : List Event :=
  [Event.purgeShots, Event.flushOut, Event.sleepCycle]

/-- The body of the while loop after the reinitialization block, given the
state `s` it left behind and the events `ev0` it emitted: `login()` guarded
by two fatal handlers, then `check_for_updates()` guarded by two fatal
handlers plus the `finally` block. `check_for_updates` reads the status
field, opens `LAST_UPDATED_FILE` (raising `FileNotFoundError`, a plain
`Exception`, when it is absent), compares, and on the update path takes a
screenshot, sends the update email and only then writes the checkpoint; on
the no-update path it takes a screenshot and sends the no-update email,
leaving the file untouched. A failing `take_screenshot` on either path
raises, reaching the generic fatal handler. -/
def stepAfterReinit (s : ProcState) (e : CycleEnv) (ev0 : List Event) : StepRes :=
  match e.loginResult with
  | PyOutcome.timeoutExc => ⟨some 1, s, ev0 ++ fatalHandlerEvents e⟩
  | PyOutcome.otherExc => ⟨some 1, s, ev0 ++ fatalHandlerEvents e⟩
  | PyOutcome.ok =>
    match e.statusResult with
    | ReadOutcome.timeoutExc =>
        ⟨some 1, s, ev0 ++ fatalHandlerEvents e ++ finallyEvents⟩
    | ReadOutcome.otherExc =>
        ⟨some 1, s, ev0 ++ fatalHandlerEvents e ++ finallyEvents⟩
    | ReadOutcome.ok v =>
      match s.checkpoint with
      | none => ⟨some 1, s, ev0 ++ fatalHandlerEvents e ++ finallyEvents⟩
      | some stored =>
        if v = stored then
          if e.screenshotOk then
            ⟨none, s,
             ev0 ++ [Event.screenshot,
                     Event.email EmailKind.noUpdate
                       (send_email "IRCC Portal Sem to Sem :-(" "no update" true
                         e.emailEnv).delivered]
                 ++ finallyEvents⟩
          else ⟨some 1, s, ev0 ++ fatalHandlerEvents e ++ finallyEvents⟩
        else
          if e.screenshotOk then
            ⟨none, { s with checkpoint := some v },
             ev0 ++ [Event.screenshot,
                     Event.email EmailKind.update
                       (send_email "IRCC Portal UPDATE!!" "updated" true
                         e.emailEnv).delivered,
                     Event.writeCheckpoint v]
                 ++ finallyEvents⟩
          else ⟨some 1, s, ev0 ++ fatalHandlerEvents e ++ finallyEvents⟩

/-- One iteration of the `while True` loop of `main()`. -/
def step (s0 : ProcState) (e : CycleEnv) : StepRes :=
  stepAfterReinit (reinitPhase s0 e).1 e (reinitPhase s0 e).2

/-- The poll loop run against a list of cycle environments, stopping when a
cycle terminates the process; the Bool records whether it exited. -/
def run (s : ProcState) : List CycleEnv → ProcState × Bool
  | [] => (s, false)
  | e :: es =>
    match (step s e).exitCode with
    | none => run (step s e).state es
    | some _ => ((step s e).state, true)

/-- Number of email events of the given kind among the events of a cycle. -/
def emailCount (evs : List Event) (k : EmailKind) : Nat :=
  (evs.filter (fun ev => match ev with
    | Event.email k2 _ => k2 == k
    | _ => false)).length

/-- The checkpoint-write events among the events of a cycle. -/
def writeEvents (evs : List Event) : List Event :=
  evs.filter (fun ev => match ev with
    | Event.writeCheckpoint _ => true
    | _ => false)

theorem reinit_checkpoint (s : ProcState) (e : CycleEnv) :
    (reinitPhase s e).1.checkpoint = s.checkpoint := by
  unfold reinitPhase
  split <;> rfl

theorem stepAfterReinit_checkpoint (s : ProcState) (e : CycleEnv) (ev0 : List Event) :
    ((stepAfterReinit s e ev0).exitCode ≠ none →
      (stepAfterReinit s e ev0).state.checkpoint = s.checkpoint) ∧
    ((stepAfterReinit s e ev0).exitCode = none →
      ∃ v, e.statusResult = ReadOutcome.ok v ∧
        (stepAfterReinit s e ev0).state.checkpoint = some v) := by
  obtain ⟨now, lr, sr, sok, hok, env⟩ := e
  obtain ⟨cp, sid, sop, sst, nxt⟩ := s
  cases lr <;> cases sr <;> rcases cp with _ | a <;>
    simp_all [stepAfterReinit]
  all_goals rename_i v
  all_goals by_cases hv : v = a <;> cases sok <;> simp_all [stepAfterReinit]

theorem step_exit_checkpoint (s : ProcState) (e : CycleEnv)
    (h : (step s e).exitCode ≠ none) :
    (step s e).state.checkpoint = s.checkpoint := by
  have h2 := (stepAfterReinit_checkpoint (reinitPhase s e).1 e (reinitPhase s e).2).1
  unfold step at h ⊢
  rw [h2 h, reinit_checkpoint]

theorem step_cont_checkpoint (s : ProcState) (e : CycleEnv)
    (h : (step s e).exitCode = none) :
    ∃ v, e.statusResult = ReadOutcome.ok v ∧
      (step s e).state.checkpoint = some v := by
  have h2 := (stepAfterReinit_checkpoint (reinitPhase s e).1 e (reinitPhase s e).2).2
  unfold step at h ⊢
  exact h2 h

theorem run_checkpoint_cases :
    ∀ (es : List CycleEnv) (s : ProcState),
      (run s es).1.checkpoint = s.checkpoint ∨
        ∃ v, (run s es).1.checkpoint = some v ∧
          ∃ e2 ∈ es, e2.statusResult = ReadOutcome.ok v
  | [], _ => Or.inl rfl
  | e :: es, s => by
    unfold run
    cases hx : (step s e).exitCode with
    | none =>
        simp only []
        rcases run_checkpoint_cases es (step s e).state with h | ⟨v, hv, e2, he2, hsr⟩
        · rcases step_cont_checkpoint s e hx with ⟨v, hsr, hcp⟩
          right
          exact ⟨v, by rw [h, hcp], e, List.mem_cons_self e es, hsr⟩
        · right
          exact ⟨v, hv, e2, List.mem_cons_of_mem e he2, hsr⟩
    | some c =>
        simp only []
        left
        exact step_exit_checkpoint s e (by rw [hx]; exact Option.noConfusion)

/-- C3: a cycle that terminates the process (any authentication or
status-read failure, which is how every exit arises) leaves the checkpoint
file exactly as it was; a cycle that completes leaves the checkpoint holding
precisely the status value it observed; and over any run of the loop the
final checkpoint is either the initial one (no cycle succeeded) or a value
actually observed by some cycle of the run. Together these give the
invariant: the checkpoint on disk always holds the value observed at the end
of the most recent successful check cycle. -/
theorem c3_checkpoint_invariant (s : ProcState) (e : CycleEnv) (es : List CycleEnv) :
    ((step s e).exitCode ≠ none → (step s e).state.checkpoint = s.checkpoint) ∧
    ((step s e).exitCode = none →
      ∃ v, e.statusResult = ReadOutcome.ok v ∧
        (step s e).state.checkpoint = some v) ∧
    ((run s es).1.checkpoint = s.checkpoint ∨
      ∃ v, (run s es).1.checkpoint = some v ∧
        ∃ e2 ∈ es, e2.statusResult = ReadOutcome.ok v) :=
  ⟨step_exit_checkpoint s e, step_cont_checkpoint s e, run_checkpoint_cases es s⟩

theorem c3_witness :
    (step (ProcState.mk (some "a") 1 true 0 2)
        (CycleEnv.mk 100 PyOutcome.ok ReadOutcome.timeoutExc true true
          (EmailEnv.mk true true true true))).exitCode ≠ none ∧
    (step (ProcState.mk (some "a") 1 true 0 2)
        (CycleEnv.mk 100 PyOutcome.ok ReadOutcome.timeoutExc true true
          (EmailEnv.mk true true true true))).state.checkpoint = some "a" :=
  ⟨by decide,
   (c3_checkpoint_invariant (ProcState.mk (some "a") 1 true 0 2)
      (CycleEnv.mk 100 PyOutcome.ok ReadOutcome.timeoutExc true true
        (EmailEnv.mk true true true true)) []).1 (by decide)⟩

theorem emailCount_reinit_append (s : ProcState) (e : CycleEnv) (k : EmailKind)
    (l : List Event) :
    emailCount ((reinitPhase s e).2 ++ l) k = emailCount l k := by
  unfold reinitPhase emailCount
  split <;> simp [List.filter_append]

theorem screenshot_mem_reinit_append (s : ProcState) (e : CycleEnv) (l : List Event) :
    Event.screenshot ∈ (reinitPhase s e).2 ++ l ↔ Event.screenshot ∈ l := by
  unfold reinitPhase
  split <;> simp

theorem write_mem_reinit_append (s : ProcState) (e : CycleEnv) (v : String)
    (l : List Event) :
    Event.writeCheckpoint v ∈ (reinitPhase s e).2 ++ l ↔
      Event.writeCheckpoint v ∈ l := by
  unfold reinitPhase
  split <;> simp

theorem writeEvents_reinit_append (s : ProcState) (e : CycleEnv) (l : List Event) :
    writeEvents ((reinitPhase s e).2 ++ l) = writeEvents l := by
  unfold reinitPhase writeEvents
  split <;> simp [List.filter_append]

theorem stepAfterReinit_update (s : ProcState) (e : CycleEnv) (ev0 : List Event)
    (a b : String) (hab : b ≠ a) (hcp : s.checkpoint = some a)
    (hl : e.loginResult = PyOutcome.ok) (hs : e.statusResult = ReadOutcome.ok b)
    (hshot : e.screenshotOk = true) :
    stepAfterReinit s e ev0 =
      ⟨none, { s with checkpoint := some b },
       ev0 ++ [Event.screenshot,
               Event.email EmailKind.update
                 (send_email "IRCC Portal UPDATE!!" "updated" true
                   e.emailEnv).delivered,
               Event.writeCheckpoint b]
           ++ finallyEvents⟩ := by
  unfold stepAfterReinit
  rw [hl, hs, hcp]
  simp [hab, hshot]

theorem stepAfterReinit_noUpdate (s : ProcState) (e : CycleEnv) (ev0 : List Event)
    (a : String) (hcp : s.checkpoint = some a)
    (hl : e.loginResult = PyOutcome.ok) (hs : e.statusResult = ReadOutcome.ok a)
    (hshot : e.screenshotOk = true) :
    stepAfterReinit s e ev0 =
      ⟨none, s,
       ev0 ++ [Event.screenshot,
               Event.email EmailKind.noUpdate
                 (send_email "IRCC Portal Sem to Sem :-(" "no update" true
                   e.emailEnv).delivered]
           ++ finallyEvents⟩ := by
  unfold stepAfterReinit
  rw [hl, hs, hcp]
  simp [hshot]

/-- C5: whenever the stored checkpoint is `a`, the portal shows `b ≠ a`, and
the cycle machinery itself works (login succeeds, status read returns `b`,
the screenshot call succeeds), the cycle continues, a screenshot artifact is
captured, exactly one update notification is dispatched, the checkpoint
write event carries `b`, and the checkpoint file afterwards contains `b`. -/
theorem c5_update_event (a b : String) (hab : b ≠ a) (s : ProcState) (e : CycleEnv)
    (hcp : s.checkpoint = some a) (hl : e.loginResult = PyOutcome.ok)
    (hs : e.statusResult = ReadOutcome.ok b) (hshot : e.screenshotOk = true) :
    (step s e).exitCode = none ∧
    (step s e).state.checkpoint = some b ∧
    emailCount (step s e).events EmailKind.update = 1 ∧
    Event.screenshot ∈ (step s e).events ∧
    Event.writeCheckpoint b ∈ (step s e).events := by
  have h1 := stepAfterReinit_update (reinitPhase s e).1 e (reinitPhase s e).2
    a b hab (by rw [reinit_checkpoint, hcp]) hl hs hshot
  have hev : (step s e).events =
      (reinitPhase s e).2 ++
        ([Event.screenshot,
          Event.email EmailKind.update
            (send_email "IRCC Portal UPDATE!!" "updated" true e.emailEnv).delivered,
          Event.writeCheckpoint b] ++ finallyEvents) := by
    unfold step
    rw [h1, List.append_assoc]
  refine ⟨by unfold step; rw [h1], by unfold step; rw [h1], ?_, ?_, ?_⟩
  · rw [hev, emailCount_reinit_append]
    simp [emailCount, finallyEvents]
  · rw [hev, screenshot_mem_reinit_append]
    simp
  · rw [hev, write_mem_reinit_append]
    simp

/-- C5 witness: checkpoint `May 1`, observed `June 2`. -/
theorem c5_witness :
    (step (ProcState.mk (some "May 1") 1 true 0 2)
        (CycleEnv.mk 100 PyOutcome.ok (ReadOutcome.ok "June 2") true true
          (EmailEnv.mk true true true true))).state.checkpoint = some "June 2" ∧
    emailCount (step (ProcState.mk (some "May 1") 1 true 0 2)
        (CycleEnv.mk 100 PyOutcome.ok (ReadOutcome.ok "June 2") true true
          (EmailEnv.mk true true true true))).events EmailKind.update = 1 :=
  ⟨(c5_update_event "May 1" "June 2" (by decide)
      (ProcState.mk (some "May 1") 1 true 0 2)
      (CycleEnv.mk 100 PyOutcome.ok (ReadOutcome.ok "June 2") true true
        (EmailEnv.mk true true true true)) rfl rfl rfl rfl).2.1,
   (c5_update_event "May 1" "June 2" (by decide)
      (ProcState.mk (some "May 1") 1 true 0 2)
      (CycleEnv.mk 100 PyOutcome.ok (ReadOutcome.ok "June 2") true true
        (EmailEnv.mk true true true true)) rfl rfl rfl rfl).2.2.1⟩

/-- C6: when the observed value equals the stored checkpoint and the cycle
machinery works, the cycle continues, no checkpoint-write event occurs (the
file content stays `a`), a screenshot is captured, and exactly one no-update
notification is dispatched. -/
theorem c6_no_update_event (a : String) (s : ProcState) (e : CycleEnv)
    (hcp : s.checkpoint = some a) (hl : e.loginResult = PyOutcome.ok)
    (hs : e.statusResult = ReadOutcome.ok a) (hshot : e.screenshotOk = true) :
    (step s e).exitCode = none ∧
    (step s e).state.checkpoint = some a ∧
    writeEvents (step s e).events = [] ∧
    emailCount (step s e).events EmailKind.noUpdate = 1 ∧
    Event.screenshot ∈ (step s e).events := by
  have h1 := stepAfterReinit_noUpdate (reinitPhase s e).1 e (reinitPhase s e).2
    a (by rw [reinit_checkpoint, hcp]) hl hs hshot
  have hev : (step s e).events =
      (reinitPhase s e).2 ++
        ([Event.screenshot,
          Event.email EmailKind.noUpdate
            (send_email "IRCC Portal Sem to Sem :-(" "no update" true
              e.emailEnv).delivered] ++ finallyEvents) := by
    unfold step
    rw [h1, List.append_assoc]
  refine ⟨by unfold step; rw [h1],
    by unfold step; rw [h1]; exact Eq.trans (reinit_checkpoint s e) hcp, ?_, ?_, ?_⟩
  · rw [hev, writeEvents_reinit_append]
    simp [writeEvents, finallyEvents]
  · rw [hev, emailCount_reinit_append]
    simp [emailCount, finallyEvents]
  · rw [hev, screenshot_mem_reinit_append]
    simp

/-- C6 witness: checkpoint and observed value both `May 1`. -/
theorem c6_witness :
    writeEvents (step (ProcState.mk (some "May 1") 1 true 0 2)
        (CycleEnv.mk 100 PyOutcome.ok (ReadOutcome.ok "May 1") true true
          (EmailEnv.mk true true true true))).events = [] ∧
    emailCount (step (ProcState.mk (some "May 1") 1 true 0 2)
        (CycleEnv.mk 100 PyOutcome.ok (ReadOutcome.ok "May 1") true true
          (EmailEnv.mk true true true true))).events EmailKind.noUpdate = 1 :=
  ⟨(c6_no_update_event "May 1"
      (ProcState.mk (some "May 1") 1 true 0 2)
      (CycleEnv.mk 100 PyOutcome.ok (ReadOutcome.ok "May 1") true true
        (EmailEnv.mk true true true true)) rfl rfl rfl rfl).2.2.1,
   (c6_no_update_event "May 1"
      (ProcState.mk (some "May 1") 1 true 0 2)
      (CycleEnv.mk 100 PyOutcome.ok (ReadOutcome.ok "May 1") true true
        (EmailEnv.mk true true true true)) rfl rfl rfl rfl).2.2.2.1⟩

/-- C4 counterexample: a login failure in a cycle where `take_screenshot`
inside the fatal handler itself raises (for instance because the driver is
unusable). The process does terminate abnormally, but no error notification
at all is sent, refuting the unconditional "sends exactly one error
notification". -/
theorem c4_counterexample :
    (step (ProcState.mk (some "May 1") 1 true 0 2)
        (CycleEnv.mk 100 PyOutcome.otherExc (ReadOutcome.ok "May 1") true false
          (EmailEnv.mk true true true true))).exitCode = some 1 ∧
    emailCount (step (ProcState.mk (some "May 1") 1 true 0 2)
        (CycleEnv.mk 100 PyOutcome.otherExc (ReadOutcome.ok "May 1") true false
          (EmailEnv.mk true true true true))).events EmailKind.error = 0 := by
  decide

/-- C4 (amended): every exception during `login()` or `check_for_updates()`
is not retried and terminates the process with a non-zero status; provided
the best-effort artifact capture inside the fatal handler itself succeeds,
exactly one error notification is dispatched, a screenshot is captured and
stdout is flushed before exit; when the handler screenshot raises, the
process still exits non-zero but without any error notification. -/
theorem c4_amended (s : ProcState) (e : CycleEnv) (c : Nat)
    (hx : (step s e).exitCode = some c) :
    c ≠ 0 ∧
    (e.handlerScreenshotOk = true →
      emailCount (step s e).events EmailKind.error = 1 ∧
      Event.screenshot ∈ (step s e).events ∧
      Event.flushOut ∈ (step s e).events) ∧
    (e.handlerScreenshotOk = false →
      emailCount (step s e).events EmailKind.error = 0) := by
  obtain ⟨cp, sid, sop, sst, nxt⟩ := s
  obtain ⟨now, lr, sr, sok, hok, env⟩ := e
  unfold step stepAfterReinit reinitPhase at hx ⊢
  by_cases hr : REINITIALIZATION_INTERVAL < now - sst
  · simp only [if_pos hr] at hx ⊢
    cases lr <;> cases sr <;> rcases cp with _ | a <;> cases sok <;> cases hok <;>
    simp_all [emailCount, fatalHandlerEvents, finallyEvents] <;>
    first
      | omega
      | (split at hx <;>
          simp_all [emailCount, fatalHandlerEvents, finallyEvents])
  · simp only [if_neg hr] at hx ⊢
    cases lr <;> cases sr <;> rcases cp with _ | a <;> cases sok <;> cases hok <;>
    simp_all [emailCount, fatalHandlerEvents, finallyEvents] <;>
    first
      | omega
      | (split at hx <;>
          simp_all [emailCount, fatalHandlerEvents, finallyEvents])

/-- C4 amended witness: a status read failing with a generic exception while
the handler screenshot works: exit status 1 and exactly one error email. -/
theorem c4_amended_witness :
    (step (ProcState.mk (some "May 1") 1 true 0 2)
        (CycleEnv.mk 100 PyOutcome.ok ReadOutcome.otherExc true true
          (EmailEnv.mk true true true true))).exitCode = some 1 ∧
    emailCount (step (ProcState.mk (some "May 1") 1 true 0 2)
        (CycleEnv.mk 100 PyOutcome.ok ReadOutcome.otherExc true true
          (EmailEnv.mk true true true true))).events EmailKind.error = 1 :=
  ⟨by decide,
   ((c4_amended (ProcState.mk (some "May 1") 1 true 0 2)
      (CycleEnv.mk 100 PyOutcome.ok ReadOutcome.otherExc true true
        (EmailEnv.mk true true true true)) 1 (by decide)).2.1 rfl).1⟩

/-- C10 counterexample: a status-read timeout in a cycle where the handler
screenshot itself raises: the process terminates abnormally, no screenshot
is captured, and the error notification is never sent, refuting
"the error notification is still sent" and "a screenshot failure never
blocks the error notification". -/
theorem c10_counterexample :
    (step (ProcState.mk (some "May 1") 1 true 0 2)
        (CycleEnv.mk 100 PyOutcome.ok ReadOutcome.timeoutExc true false
          (EmailEnv.mk true true true true))).exitCode = some 1 ∧
    emailCount (step (ProcState.mk (some "May 1") 1 true 0 2)
        (CycleEnv.mk 100 PyOutcome.ok ReadOutcome.timeoutExc true false
          (EmailEnv.mk true true true true))).events EmailKind.error = 0 ∧
    Event.screenshot ∉ (step (ProcState.mk (some "May 1") 1 true 0 2)
        (CycleEnv.mk 100 PyOutcome.ok ReadOutcome.timeoutExc true false
          (EmailEnv.mk true true true true))).events := by
  decide

/-- C10 (amended): on every fatal path, artifact capture is NOT guarded: the
error notification goes out exactly when the screenshot call inside the
handler succeeds, and a screenshot is captured exactly when that call
succeeds; when it raises, the process still terminates abnormally (non-zero)
but the error notification is suppressed. -/
theorem c10_amended (s : ProcState) (e : CycleEnv) (c : Nat)
    (hx : (step s e).exitCode = some c) :
    (emailCount (step s e).events EmailKind.error = 1 ↔
      e.handlerScreenshotOk = true) ∧
    (Event.screenshot ∈ (step s e).events ↔ e.handlerScreenshotOk = true) ∧
    c ≠ 0 := by
  obtain ⟨cp, sid, sop, sst, nxt⟩ := s
  obtain ⟨now, lr, sr, sok, hok, env⟩ := e
  unfold step stepAfterReinit reinitPhase at hx ⊢
  by_cases hr : REINITIALIZATION_INTERVAL < now - sst
  · simp only [if_pos hr] at hx ⊢
    cases lr <;> cases sr <;> rcases cp with _ | a <;> cases sok <;> cases hok <;>
    simp_all [emailCount, fatalHandlerEvents, finallyEvents] <;>
    first
      | omega
      | (split at hx <;>
          simp_all [emailCount, fatalHandlerEvents, finallyEvents])
  · simp only [if_neg hr] at hx ⊢
    cases lr <;> cases sr <;> rcases cp with _ | a <;> cases sok <;> cases hok <;>
    simp_all [emailCount, fatalHandlerEvents, finallyEvents] <;>
    first
      | omega
      | (split at hx <;>
          simp_all [emailCount, fatalHandlerEvents, finallyEvents])

/-- C10 amended witness: a login timeout with a working handler screenshot:
exit status 1 and the error email goes out. -/
theorem c10_amended_witness :
    (step (ProcState.mk (some "May 1") 1 true 0 2)
        (CycleEnv.mk 100 PyOutcome.timeoutExc (ReadOutcome.ok "May 1") true true
          (EmailEnv.mk true true true true))).exitCode = some 1 ∧
    emailCount (step (ProcState.mk (some "May 1") 1 true 0 2)
        (CycleEnv.mk 100 PyOutcome.timeoutExc (ReadOutcome.ok "May 1") true true
          (EmailEnv.mk true true true true))).events EmailKind.error = 1 :=
  ⟨by decide,
   ((c10_amended (ProcState.mk (some "May 1") 1 true 0 2)
      (CycleEnv.mk 100 PyOutcome.timeoutExc (ReadOutcome.ok "May 1") true true
        (EmailEnv.mk true true true true)) 1 (by decide)).1).mpr rfl⟩

/-- C1: at a cycle whose elapsed time exceeds `REINITIALIZATION_INTERVAL`
(here session created at 0, clock now 2000, interval 1800), the
reinitialization block first quits the old driver (id 1), creates a fresh
driver (id 2) - and then the `with` statement ends immediately and quits the
new driver too, so at the authentication attempt the state holds a newly
created session that is NOT open. This contradicts the claim that the
authentication of that cycle is performed with a still-open new Session: the
old driver is indeed released first and a new driver is created, but the new
driver has already been quit when `login()` runs. -/
theorem c1_reinit_quits_new_session :
    (reinitPhase (ProcState.mk (some "May 1") 1 true 0 2)
        (CycleEnv.mk 2000 PyOutcome.ok (ReadOutcome.ok "May 1") true true
          (EmailEnv.mk true true true true))).2 =
      [Event.quitSession 1, Event.createSession 2, Event.quitSession 2] ∧
    (reinitPhase (ProcState.mk (some "May 1") 1 true 0 2)
        (CycleEnv.mk 2000 PyOutcome.ok (ReadOutcome.ok "May 1") true true
          (EmailEnv.mk true true true true))).1.sessionId = 2 ∧
    (reinitPhase (ProcState.mk (some "May 1") 1 true 0 2)
        (CycleEnv.mk 2000 PyOutcome.ok (ReadOutcome.ok "May 1") true true
          (EmailEnv.mk true true true true))).1.sessionOpen = false ∧
    (step (ProcState.mk (some "May 1") 1 true 0 2)
        (CycleEnv.mk 2000 PyOutcome.ok (ReadOutcome.ok "May 1") true true
          (EmailEnv.mk true true true true))).state.sessionOpen = false := by
  decide

/-- C2: on a first run (checkpoint file absent) with login and status read
succeeding, `open(LAST_UPDATED_FILE)` raises `FileNotFoundError`, which the
generic fatal handler treats like any other failure: the process exits with
status 1 after one error notification; no update notification is sent, no
checkpoint write happens, and the checkpoint file still does not exist. This
contradicts the claim that the missing checkpoint is recoverable and leads
to the update-event path with creation of the checkpoint file. -/
theorem c2_missing_checkpoint_fatal :
    (step (ProcState.mk none 1 true 0 2)
        (CycleEnv.mk 100 PyOutcome.ok (ReadOutcome.ok "June 1, 2023") true true
          (EmailEnv.mk true true true true))).exitCode = some 1 ∧
    (step (ProcState.mk none 1 true 0 2)
        (CycleEnv.mk 100 PyOutcome.ok (ReadOutcome.ok "June 1, 2023") true true
          (EmailEnv.mk true true true true))).state.checkpoint = none ∧
    emailCount (step (ProcState.mk none 1 true 0 2)
        (CycleEnv.mk 100 PyOutcome.ok (ReadOutcome.ok "June 1, 2023") true true
          (EmailEnv.mk true true true true))).events EmailKind.update = 0 ∧
    emailCount (step (ProcState.mk none 1 true 0 2)
        (CycleEnv.mk 100 PyOutcome.ok (ReadOutcome.ok "June 1, 2023") true true
          (EmailEnv.mk true true true true))).events EmailKind.error = 1 ∧
    writeEvents (step (ProcState.mk none 1 true 0 2)
        (CycleEnv.mk 100 PyOutcome.ok (ReadOutcome.ok "June 1, 2023") true true
          (EmailEnv.mk true true true true))).events = [] := by
  decide

/-- Events with the delivery flag of email events erased: the only part of a
cycle the email transport can influence. -/
def eraseDelivery : Event → Event
  | Event.email k _ => Event.email k true
  | ev => ev

/-- The control-flow content of a cycle result: exit code, next state, and
the events up to delivery success of emails. -/
def stepShape (r : StepRes) : Option Nat × ProcState × List Event :=
  (r.exitCode, r.state, r.events.map eraseDelivery)

/-- C9: whatever step of the `send_email` try block fails (attachment read,
connection, SMTP login or sendmail), `send_email` catches the exception,
logs it, reports no delivery and returns normally for every subject and
body; moreover the exit/continue outcome, the successor state and all events
except email delivery success are completely independent of the email
transport environment, so a notification failure never terminates the loop
or changes what the cycle otherwise does. -/
theorem c9_notification_best_effort (attach : Bool) (env : EmailEnv) (err : EmailErr)
    (hfail : send_email_try attach env = Except.error err) :
    (∀ subject body, send_email subject body attach env =
      EmailSendRes.mk false true) ∧
    ∀ (s : ProcState) (e : CycleEnv) (env2 : EmailEnv),
      stepShape (step s { e with emailEnv := env2 }) = stepShape (step s e) := by
  constructor
  · intro subject body
    unfold send_email
    rw [hfail]
  · intro s e2 env2
    obtain ⟨cp, sid, sop, sst, nxt⟩ := s
    obtain ⟨now, lr, sr, sok, hok, env3⟩ := e2
    unfold stepShape step stepAfterReinit reinitPhase
    by_cases hr : REINITIALIZATION_INTERVAL < now - sst
    · simp only [if_pos hr]
      cases lr <;> cases sr <;> rcases cp with _ | a <;> cases sok <;> cases hok <;>
      simp [eraseDelivery, fatalHandlerEvents, finallyEvents] <;>
      split <;> simp [eraseDelivery, fatalHandlerEvents, finallyEvents]
    · simp only [if_neg hr]
      cases lr <;> cases sr <;> rcases cp with _ | a <;> cases sok <;> cases hok <;>
      simp [eraseDelivery, fatalHandlerEvents, finallyEvents] <;>
      split <;> simp [eraseDelivery, fatalHandlerEvents, finallyEvents]

/-- C9 witness: a sendmail failure is swallowed and reported as logged. -/
theorem c9_witness :
    send_email_try true (EmailEnv.mk true true true false) =
      Except.error EmailErr.send ∧
    send_email "IRCC Portal UPDATE!!" "updated" true
        (EmailEnv.mk true true true false) = EmailSendRes.mk false true :=
  ⟨rfl,
   (c9_notification_best_effort true (EmailEnv.mk true true true false)
      EmailErr.send rfl).1 "IRCC Portal UPDATE!!" "updated"⟩
